import Mathlib

/-!
Verification of the idled pricing-lookup subsystem and scan pipeline.

This file shallowly embeds the Go sources of the idled repository:
  - pkg/pricing/types.go   (pricing sources, caches, stats, default price table)
  - pkg/pricing (stats helpers, EC2 and EBS price lookups, savings)
  - pkg/aws/ebs.go and the EC2 client (stopped-instance / available-volume scans)
  - cmd/idled (generic region fan-out processService / processResults)
  - the formatter pricing marker

Go maps are embedded as functions into Option (map[string]int is embedded as a
total function String → Nat, matching Go's zero-value reads).  Prices
(float64 in Go) are embedded as rationals: every claim proved here is about
the structure of the computations (which branch runs, which source tag and
which table entry is returned), not about floating-point rounding.
Side effects are embedded by explicit state passing: the mutex-guarded global
caches and statistics of pkg/pricing become a PricingState threaded through
each operation, and issuing an AWS Pricing API request is recorded by
incrementing the apiCalls counter of the state.  The outcome of the external
Pricing API (and whether the pricing client initialisation succeeded) is an
explicit environment PricingEnv.
-/

namespace Idled

/-- Go map[string]int: reading a missing key yields the zero value 0. -/
abbrev CounterMap := String → Nat

/-- Inner map of PricingAPIStats: region → {success, failure, cache} counters. -/
abbrev RegionStatsMap := String → Option CounterMap

/-- PricingAPIStats from pkg/pricing/types.go: service → region → counters. -/
abbrev ServiceStatsMap := String → Option RegionStatsMap

/-- A pricing cache (EC2PricingCache / EBSPricingCache): cache key → price. -/
abbrev PriceCache := String → Option ℚ

/-- PricingSourceAPI from pkg/pricing/types.go. -/
def PricingSourceAPI : String := "API"

/-- PricingSourceCache from pkg/pricing/types.go. -/
def PricingSourceCache : String := "Cache"

/-- PricingSourceDefault from pkg/pricing/types.go. -/
def PricingSourceDefault : String := "Default"

/-- PricingSourceNA from pkg/pricing/types.go. -/
def PricingSourceNA : String := "N/A"

/-- The mutable package-level state of pkg/pricing: both pricing caches, the
PricingAPIStats map, and a count of AWS Pricing API requests issued (used to
state that cache hits perform no API call). -/
structure PricingState where
  ec2PricingCache : PriceCache
  ebsPricingCache : PriceCache
  pricingAPIStats : ServiceStatsMap
  apiCalls : Nat

/-- The freshly initialised state: empty caches, empty stats, no API calls. -/
def initialPricingState : PricingState :=
  ⟨fun _ => none, fun _ => none, fun _ => none, 0⟩

/-- Environment of a pricing lookup: whether InitPricingClient produced a
client (PricingClient != nil), and the outcome of getEC2PriceFromAPI /
getEBSPriceFromAPI for each (type, region): some price when the request and
the JSON extraction succeed, none when they fail. -/
structure PricingEnv where
  pricingClientAvailable : Bool
  ec2PriceFromAPI : String → String → Option ℚ
  ebsPriceFromAPI : String → String → Option ℚ

/-- updatePricingAPIStats from pkg/pricing (stats helpers): creates the
missing service map and the missing region counter map (all counters zero),
then increments the statType counter by one. -/
def updatePricingAPIStats (stats : ServiceStatsMap) (service region statType : String) :
    ServiceStatsMap :=
  let serviceMap : RegionStatsMap :=
    match stats service with
    | some m => m
    | none => fun _ => none
  let regionCounters : CounterMap :=
    match serviceMap region with
    | some c => c
    | none => fun _ => 0
  let bumped : CounterMap :=
    fun k => if k = statType then regionCounters statType + 1 else regionCounters k
  fun s =>
    if s = service then
      some (fun r => if r = region then some bumped else serviceMap r)
    else stats s

/-- UpdateCacheHitStats: updatePricingAPIStats with statType "cache". -/
def UpdateCacheHitStats (st : PricingState) (service region : String) : PricingState :=
  { st with pricingAPIStats := updatePricingAPIStats st.pricingAPIStats service region "cache" }

/-- UpdateAPISuccessStats: updatePricingAPIStats with statType "success". -/
def UpdateAPISuccessStats (st : PricingState) (service region : String) : PricingState :=
  { st with pricingAPIStats := updatePricingAPIStats st.pricingAPIStats service region "success" }

/-- UpdateAPIFailureStats: updatePricingAPIStats with statType "failure". -/
def UpdateAPIFailureStats (st : PricingState) (service region : String) : PricingState :=
  { st with pricingAPIStats := updatePricingAPIStats st.pricingAPIStats service region "failure" }

/-- Issuing one AWS Pricing API request (bookkeeping for the embedding). -/
def recordAPICall (st : PricingState) : PricingState :=
  { st with apiCalls := st.apiCalls + 1 }

/-- Go map assignment cache[key] = price. -/
def cacheInsert (cache : PriceCache) (key : String) (price : ℚ) : PriceCache :=
  fun k => if k = key then some price else cache k

/-- The us-east-1 row of DefaultEBSPrices (pkg/pricing/types.go). -/
def DefaultEBSPricesUSEast1 : String → Option ℚ := fun volumeType =>
  if volumeType = "gp2" then some 0.10
  else if volumeType = "gp3" then some 0.08
  else if volumeType = "io1" then some 0.125
  else if volumeType = "io2" then some 0.125
  else if volumeType = "st1" then some 0.045
  else if volumeType = "sc1" then some 0.025
  else if volumeType = "standard" then some 0.05
  else none

/-- The ap-northeast-2 row of DefaultEBSPrices (pkg/pricing/types.go). -/
def DefaultEBSPricesSeoul : String → Option ℚ := fun volumeType =>
  if volumeType = "gp2" then some 0.114
  else if volumeType = "gp3" then some 0.092
  else if volumeType = "io1" then some 0.142
  else if volumeType = "io2" then some 0.142
  else if volumeType = "st1" then some 0.051
  else if volumeType = "sc1" then some 0.029
  else if volumeType = "standard" then some 0.057
  else none

/-- DefaultEBSPrices from pkg/pricing/types.go: region → volume type → USD
per GB-month. -/
def DefaultEBSPrices : String → Option (String → Option ℚ) := fun region =>
  if region = "us-east-1" then some DefaultEBSPricesUSEast1
  else if region = "ap-northeast-2" then some DefaultEBSPricesSeoul
  else none

/-- Result of a WithSource pricing lookup: a cost and a provenance tag. -/
structure PriceResult where
  price : ℚ
  source : String
deriving DecidableEq

/-- GetInstanceHourlyPriceWithSource from pkg/pricing: cache hit returns the
cached price with source Cache; otherwise, when the client is available, a
fresh API fetch is attempted and on success the price is cached and returned
with source API; in every remaining case the function returns 0 with source
N/A (the EC2 path has no static fallback). -/
def GetInstanceHourlyPriceWithSource (env : PricingEnv) (instanceType region : String)
    (st : PricingState) : PriceResult × PricingState :=
  let cacheKey := region ++ ":" ++ instanceType
  match st.ec2PricingCache cacheKey with
  | some price => (⟨price, PricingSourceCache⟩, UpdateCacheHitStats st "EC2" region)
  | none =>
      if env.pricingClientAvailable then
        match env.ec2PriceFromAPI instanceType region with
        | some price =>
            let st1 := UpdateAPISuccessStats (recordAPICall st) "EC2" region
            (⟨price, PricingSourceAPI⟩,
             { st1 with ec2PricingCache := cacheInsert st1.ec2PricingCache cacheKey price })
        | none =>
            (⟨0, PricingSourceNA⟩, UpdateAPIFailureStats (recordAPICall st) "EC2" region)
      else
        (⟨0, PricingSourceNA⟩, UpdateAPIFailureStats st "EC2" region)

/-- GetInstanceHourlyPrice: drops the source. -/
def GetInstanceHourlyPrice (env : PricingEnv) (instanceType region : String)
    (st : PricingState) : ℚ × PricingState :=
  let r := GetInstanceHourlyPriceWithSource env instanceType region st
  (r.1.price, r.2)

/-- CalculateMonthlyCostWithSource: hourly price times 730, source propagated;
0 and N/A when the hourly lookup reported N/A. -/
def CalculateMonthlyCostWithSource (env : PricingEnv) (instanceType region : String)
    (st : PricingState) : PriceResult × PricingState :=
  let r := GetInstanceHourlyPriceWithSource env instanceType region st
  if r.1.source = PricingSourceNA then (⟨0, PricingSourceNA⟩, r.2)
  else (⟨r.1.price * 730, r.1.source⟩, r.2)

/-- CalculateMonthlyCost: drops the source. -/
def CalculateMonthlyCost (env : PricingEnv) (instanceType region : String)
    (st : PricingState) : ℚ × PricingState :=
  let r := CalculateMonthlyCostWithSource env instanceType region st
  (r.1.price, r.2)

/-- CalculateSavingsWithSource: monthly cost (hourly times 730) scaled by
elapsedDays/30, source propagated; 0 and N/A when the hourly lookup
reported N/A. -/
def CalculateSavingsWithSource (env : PricingEnv) (instanceType region : String)
    (elapsedDays : Int) (st : PricingState) : PriceResult × PricingState :=
  let r := GetInstanceHourlyPriceWithSource env instanceType region st
  if r.1.source = PricingSourceNA then (⟨0, PricingSourceNA⟩, r.2)
  else (⟨r.1.price * 730 * (elapsedDays : ℚ) / 30, r.1.source⟩, r.2)

/-- CalculateSavings: drops the source. -/
def CalculateSavings (env : PricingEnv) (instanceType region : String)
    (elapsedDays : Int) (st : PricingState) : ℚ × PricingState :=
  let r := CalculateSavingsWithSource env instanceType region elapsedDays st
  (r.1.price, r.2)

/-- The static fallback chain of CalculateEBSMonthlyCostWithSource
(pkg/pricing/ebs.go lines 290-304): the region row by type, else the region
row gp2; when the region is absent, the us-east-1 row by type, else its gp2
entry. -/
def ebsFallbackPrice (volumeType region : String) : Option ℚ :=
  match DefaultEBSPrices region with
  | some regionPrices =>
      match regionPrices volumeType with
      | some typePrice => some typePrice
      | none => regionPrices "gp2"
  | none =>
      match DefaultEBSPrices "us-east-1" with
      | some regionPrices =>
          match regionPrices volumeType with
          | some typePrice => some typePrice
          | none => regionPrices "gp2"
      | none => none

/-- The failure branch of CalculateEBSMonthlyCostWithSource: failure stats,
then the static fallback chain with source Default, and 0 with source N/A
only when the whole chain fails. -/
def ebsDefaultBranch (volumeType : String) (sizeGB : Int) (region : String)
    (st : PricingState) : PriceResult × PricingState :=
  let st1 := UpdateAPIFailureStats st "EBS" region
  match ebsFallbackPrice volumeType region with
  | some price => (⟨(sizeGB : ℚ) * price, PricingSourceDefault⟩, st1)
  | none => (⟨0, PricingSourceNA⟩, st1)

/-- CalculateEBSMonthlyCostWithSource from pkg/pricing/ebs.go: cache hit
returns sizeGB times the cached per-GB price with source Cache; a fresh API
success caches the per-GB price and returns with source API; otherwise the
static fallback chain runs (source Default, or N/A when it fails). -/
def CalculateEBSMonthlyCostWithSource (env : PricingEnv) (volumeType : String)
    (sizeGB : Int) (region : String) (st : PricingState) : PriceResult × PricingState :=
  let cacheKey := "ebs:" ++ volumeType ++ ":" ++ region
  match st.ebsPricingCache cacheKey with
  | some price =>
      (⟨(sizeGB : ℚ) * price, PricingSourceCache⟩, UpdateCacheHitStats st "EBS" region)
  | none =>
      if env.pricingClientAvailable then
        match env.ebsPriceFromAPI volumeType region with
        | some price =>
            let st1 := UpdateAPISuccessStats (recordAPICall st) "EBS" region
            (⟨(sizeGB : ℚ) * price, PricingSourceAPI⟩,
             { st1 with ebsPricingCache := cacheInsert st1.ebsPricingCache cacheKey price })
        | none => ebsDefaultBranch volumeType sizeGB region (recordAPICall st)
      else ebsDefaultBranch volumeType sizeGB region st

/-- CalculateEBSMonthlyCost: drops the source. -/
def CalculateEBSMonthlyCost (env : PricingEnv) (volumeType : String) (sizeGB : Int)
    (region : String) (st : PricingState) : ℚ × PricingState :=
  let r := CalculateEBSMonthlyCostWithSource env volumeType sizeGB region st
  (r.1.price, r.2)

/-- CalculateEBSSavings from pkg/pricing/ebs.go: the monthly cost, 0 when the
source is N/A; the days argument is not used. -/
def CalculateEBSSavings (env : PricingEnv) (volumeType : String) (sizeGB : Int)
    (region : String) (days : Int) (st : PricingState) : ℚ × PricingState :=
  let r := CalculateEBSMonthlyCostWithSource env volumeType sizeGB region st
  if r.1.source = PricingSourceNA then (0, r.2) else (r.1.price, r.2)

/-- The fallback chain of GetEBSVolumePrice (pkg/pricing/ebs.go lines 52-66),
which reads the maps with Go zero-value semantics: the region row by type,
else the region row gp2 read with default 0; when the region is absent, the
us-east-1 row by type read with default 0, and when that is 0 the us-east-1
gp2 entry read with default 0. -/
def getEBSVolumePriceFallback (volumeType region : String) : ℚ :=
  match DefaultEBSPrices region with
  | some regionPrices =>
      match regionPrices volumeType with
      | some typePrice => typePrice
      | none => (regionPrices "gp2").getD 0
  | none =>
      let price := (DefaultEBSPricesUSEast1 volumeType).getD 0
      if price = 0 then (DefaultEBSPricesUSEast1 "gp2").getD 0 else price

/-- GetEBSVolumePrice from pkg/pricing/ebs.go: cache hit returns the cached
price; otherwise an API fetch is attempted (when the client is available) and
on failure the zero-default fallback chain supplies the price; the resulting
price is cached in every non-hit path, fallback prices included. -/
def GetEBSVolumePrice (env : PricingEnv) (volumeType region : String)
    (st : PricingState) : ℚ × PricingState :=
  let cacheKey := "ebs:" ++ volumeType ++ ":" ++ region
  match st.ebsPricingCache cacheKey with
  | some price => (price, UpdateCacheHitStats st "EBS" region)
  | none =>
      let stA := if env.pricingClientAvailable then recordAPICall st else st
      match (if env.pricingClientAvailable then env.ebsPriceFromAPI volumeType region else none) with
      | some price =>
          let st1 := UpdateAPISuccessStats stA "EBS" region
          (price, { st1 with ebsPricingCache := cacheInsert st1.ebsPricingCache cacheKey price })
      | none =>
          let price := getEBSVolumePriceFallback volumeType region
          let st1 := UpdateAPIFailureStats stA "EBS" region
          (price, { st1 with ebsPricingCache := cacheInsert st1.ebsPricingCache cacheKey price })

/-- GetPricingMarker from the formatter: API, CACHE and N/A keep a marker of
their own; every other source, Default included, is rendered "-". -/
def GetPricingMarker (source : String) : String :=
  if source = "API" then "API"
  else if source = "Cache" then "CACHE"
  else if source = "N/A" then "N/A"
  else "-"

/-! The operations of pkg/pricing that touch the caches, as one type, so that
cache-preservation facts can be quantified over every operation. -/

/-- One call into pkg/pricing. -/
inductive PricingOp
  | getInstanceHourlyPriceWithSource (instanceType region : String)
  | getInstanceHourlyPrice (instanceType region : String)
  | calculateMonthlyCostWithSource (instanceType region : String)
  | calculateMonthlyCost (instanceType region : String)
  | calculateSavingsWithSource (instanceType region : String) (elapsedDays : Int)
  | calculateSavings (instanceType region : String) (elapsedDays : Int)
  | getEBSVolumePrice (volumeType region : String)
  | calculateEBSMonthlyCostWithSource (volumeType : String) (sizeGB : Int) (region : String)
  | calculateEBSMonthlyCost (volumeType : String) (sizeGB : Int) (region : String)
  | calculateEBSSavings (volumeType : String) (sizeGB : Int) (region : String) (days : Int)

/-- The state left behind by one pkg/pricing operation. -/
def runPricingOp (op : PricingOp) (env : PricingEnv) (st : PricingState) : PricingState :=
  match op with
  | .getInstanceHourlyPriceWithSource it rg => (GetInstanceHourlyPriceWithSource env it rg st).2
  | .getInstanceHourlyPrice it rg => (GetInstanceHourlyPrice env it rg st).2
  | .calculateMonthlyCostWithSource it rg => (CalculateMonthlyCostWithSource env it rg st).2
  | .calculateMonthlyCost it rg => (CalculateMonthlyCost env it rg st).2
  | .calculateSavingsWithSource it rg d => (CalculateSavingsWithSource env it rg d st).2
  | .calculateSavings it rg d => (CalculateSavings env it rg d st).2
  | .getEBSVolumePrice vt rg => (GetEBSVolumePrice env vt rg st).2
  | .calculateEBSMonthlyCostWithSource vt sz rg =>
      (CalculateEBSMonthlyCostWithSource env vt sz rg st).2
  | .calculateEBSMonthlyCost vt sz rg => (CalculateEBSMonthlyCost env vt sz rg st).2
  | .calculateEBSSavings vt sz rg d => (CalculateEBSSavings env vt sz rg d st).2

/-- Reading one counter of the PricingAPIStats map (missing maps read as 0,
like Go zero values). -/
def getStatCounter (stats : ServiceStatsMap) (service region statType : String) : Nat :=
  match stats service with
  | some m =>
      match m region with
      | some c => c statType
      | none => 0
  | none => 0

/-! Embedding of the region fan-out of cmd/idled (processService and
processResults).  Each goroutine of processService writes only its own index
of the results slice and the wait group joins all of them before
processResults runs, so the joined results slice is exactly this map over
the regions.  getDataForRegion is embedded as a function returning the data
slice and an optional error message. -/

/-- ScanResult from cmd/idled. -/
structure ScanResult (T : Type) where
  data : List T
  err : Option String
  region : String

/-- The results slice of processService after the wait-group join. -/
def processServiceResults {T : Type} (getDataForRegion : String → List T × Option String)
    (regions : List String) : List (ScanResult T) :=
  regions.map fun r =>
    let res := getDataForRegion r
    ⟨res.1, res.2, r⟩

/-- The aggregation loop of processResults: regions with a non-nil error are
skipped, the data of the others is appended in slice order (the loop runs
twice in the Go code — once for the item count, once for the table — with
the same result). -/
def processResultsData {T : Type} : List (ScanResult T) → List T
  | [] => []
  | res :: rest =>
      match res.err with
      | none => res.data ++ processResultsData rest
      | some _ => processResultsData rest

/-- The error lines printed by processResults, as (region, error) pairs in
slice order. -/
def processResultsErrors {T : Type} : List (ScanResult T) → List (String × String)
  | [] => []
  | res :: rest =>
      match res.err with
      | none => processResultsErrors rest
      | some e => (res.region, e) :: processResultsErrors rest

/-- Modelled from the spec: the sequential reference for the region fan-out —
calling getDataForRegion once per region in list order, keeping the data of
the regions whose fetch succeeded and skipping (log and continue) the
regions that failed. -/
def sequentialScanData {T : Type} (getDataForRegion : String → List T × Option String) :
    List String → List T
  | [] => []
  | r :: rs =>
      let res := getDataForRegion r
      (match res.2 with
       | none => res.1
       | some _ => []) ++ sequentialScanData getDataForRegion rs

/-! Embedding of the EC2 and EBS scans (pkg/aws).  Timestamps are embedded as
integers counting hours, so CalculateElapsedDays from pkg/utils becomes
integer division by 24 against a current time carried by the scan
environment.  The date parsing inside utils.ParseStateTransitionTime
(time.Parse of a wall-clock string) is abstracted as an arbitrary function of
the environment: every theorem below holds for every such parser. -/

/-- An EC2 tag (pointer fields become options, as in the SDK). -/
structure EC2Tag where
  key : Option String
  value : Option String

/-- GetTagValue from pkg/utils/tag_utils.go: the value of the first tag with
the given key (empty string when its value pointer is nil), or "" when no
tag matches. -/
def GetTagValue : List EC2Tag → String → String
  | [], _ => ""
  | tag :: rest, key =>
      match tag.key with
      | some k =>
          if k = key then
            match tag.value with
            | some v => v
            | none => ""
          else GetTagValue rest key
      | none => GetTagValue rest key

/-- GetName from pkg/utils/tag_utils.go. -/
def GetName (tags : List EC2Tag) : String :=
  GetTagValue tags "Name"

/-- CalculateElapsedDays from pkg/utils (time in hours, truncating division
as Go float-to-int conversion truncates). -/
def CalculateElapsedDays (now since : Int) : Int :=
  (now - since).tdiv 24

/-- The environment of a scan: the pricing environment, the current time (in
hours), and the abstracted state-transition-reason date parser. -/
structure ScanEnv where
  pricing : PricingEnv
  now : Int
  parseStateTransitionTime : String → Option Int

/-- An EC2 instance as consumed by GetStoppedInstances (the fields the loop
reads; pointers that the code dereferences unconditionally are embedded as
plain fields). -/
structure EC2Instance where
  instanceId : String
  state : String
  instanceType : String
  tags : List EC2Tag
  stateTransitionReason : Option String
  launchTime : Int
  availabilityZone : String

/-- models.InstanceInfo. -/
structure InstanceInfo where
  instanceID : String
  name : String
  instanceType : String
  region : String
  availabilityZone : String
  stoppedTime : Option Int
  launchTime : Int
  elapsedDays : Int
  estimatedMonthlyCost : ℚ
  estimatedSavings : ℚ
  pricingSource : String

/-- The body of the GetStoppedInstances loop for one instance: name from the
Name tag, stop time parsed from the state transition reason, elapsed days
from it, then CalculateMonthlyCostWithSource and CalculateSavingsWithSource
against the threaded pricing state. -/
def mkInstanceInfo (env : ScanEnv) (region : String) (inst : EC2Instance)
    (st : PricingState) : InstanceInfo × PricingState :=
  let name := GetName inst.tags
  let stoppedTime :=
    match inst.stateTransitionReason with
    | some reason => if 0 < reason.length then env.parseStateTransitionTime reason else none
    | none => none
  let elapsedDays :=
    match stoppedTime with
    | some t => CalculateElapsedDays env.now t
    | none => 0
  let mc := CalculateMonthlyCostWithSource env.pricing inst.instanceType region st
  let sv := CalculateSavingsWithSource env.pricing inst.instanceType region elapsedDays mc.2
  (⟨inst.instanceId, name, inst.instanceType, region, inst.availabilityZone, stoppedTime,
    inst.launchTime, elapsedDays, mc.1.price, sv.1.price, mc.1.source⟩, sv.2)

/-- The nested loop of GetStoppedInstances over the (flattened) reservations,
threading the pricing state. -/
def instancesLoop (env : ScanEnv) (region : String) :
    List EC2Instance → PricingState → List InstanceInfo × PricingState
  | [], st => ([], st)
  | inst :: rest, st =>
      let head := mkInstanceInfo env region inst st
      let tail := instancesLoop env region rest head.2
      (head.1 :: tail.1, tail.2)

/-- The server side of the DescribeInstances request built by
GetStoppedInstances, modelled from the AWS filter semantics: the request
carries the filter instance-state-name = stopped, so each reservation of the
response retains exactly its instances in state "stopped". -/
def DescribeInstancesStoppedFilter (reservations : List (List EC2Instance)) :
    List (List EC2Instance) :=
  reservations.map fun instances => instances.filter fun i => i.state = "stopped"

/-- GetStoppedInstances from the EC2 client: the filtered DescribeInstances
response, flattened reservation by reservation, mapped through the loop
body. -/
def GetStoppedInstances (env : ScanEnv) (region : String)
    (reservations : List (List EC2Instance)) (st : PricingState) :
    List InstanceInfo × PricingState :=
  instancesLoop env region (DescribeInstancesStoppedFilter reservations).flatten st

/-- An EBS volume attachment (only the attach time is read). -/
structure EBSAttachment where
  attachTime : Option Int

/-- An EBS volume as consumed by GetAvailableVolumes. -/
structure EBSVolume where
  volumeId : String
  state : String
  volumeType : String
  size : Int
  availabilityZone : String
  createTime : Int
  tags : List EC2Tag
  attachments : List EBSAttachment

/-- models.VolumeInfo. -/
structure VolumeInfo where
  volumeID : String
  name : String
  size : Int
  volumeType : String
  state : String
  region : String
  availabilityZone : String
  creationTime : Int
  lastAttachmentTime : Option Int
  elapsedDaysSinceUsed : Int
  estimatedMonthlyCost : ℚ
  estimatedSavings : ℚ
  pricingSource : String

/-- The attachment scan of the GetAvailableVolumes loop: the latest non-nil
attach time (After is a strict comparison). -/
def lastAttachmentTimeOf : List EBSAttachment → Option Int → Option Int
  | [], acc => acc
  | a :: rest, acc =>
      match a.attachTime with
      | some t =>
          match acc with
          | none => lastAttachmentTimeOf rest (some t)
          | some l => lastAttachmentTimeOf rest (if l < t then some t else some l)
      | none => lastAttachmentTimeOf rest acc

/-- The body of the GetAvailableVolumes loop for one volume: name, last
attachment time (falling back to the creation time), elapsed days, then
CalculateEBSMonthlyCostWithSource and CalculateEBSSavings against the
threaded pricing state. -/
def mkVolumeInfo (env : ScanEnv) (region : String) (v : EBSVolume)
    (st : PricingState) : VolumeInfo × PricingState :=
  let name := GetName v.tags
  let lastOfAttachments := lastAttachmentTimeOf v.attachments none
  let lastUsed :=
    match lastOfAttachments with
    | some t => (some t, CalculateElapsedDays env.now t)
    | none => (some v.createTime, CalculateElapsedDays env.now v.createTime)
  let mc := CalculateEBSMonthlyCostWithSource env.pricing v.volumeType v.size region st
  let sv := CalculateEBSSavings env.pricing v.volumeType v.size region lastUsed.2 mc.2
  (⟨v.volumeId, name, v.size, v.volumeType, v.state, region, v.availabilityZone, v.createTime,
    lastUsed.1, lastUsed.2, mc.1.price, sv.1, mc.1.source⟩, sv.2)

/-- The loop of GetAvailableVolumes, threading the pricing state. -/
def volumesLoop (env : ScanEnv) (region : String) :
    List EBSVolume → PricingState → List VolumeInfo × PricingState
  | [], st => ([], st)
  | v :: rest, st =>
      let head := mkVolumeInfo env region v st
      let tail := volumesLoop env region rest head.2
      (head.1 :: tail.1, tail.2)

/-- The server side of the DescribeVolumes request built by
GetAvailableVolumes, modelled from the AWS filter semantics: the request
carries the filter status = available, so the response retains exactly the
volumes in state "available". -/
def DescribeVolumesAvailableFilter (volumes : List EBSVolume) : List EBSVolume :=
  volumes.filter fun v => v.state = "available"

/-- GetAvailableVolumes from pkg/aws/ebs.go: the filtered DescribeVolumes
response mapped through the loop body. -/
def GetAvailableVolumes (env : ScanEnv) (region : String)
    (volumes : List EBSVolume) (st : PricingState) : List VolumeInfo × PricingState :=
  volumesLoop env region (DescribeVolumesAvailableFilter volumes) st

/-- The four provenance tags a WithSource lookup may report. -/
def IsPricingSource (s : String) : Prop :=
  s = PricingSourceAPI ∨ s = PricingSourceCache ∨ s = PricingSourceDefault ∨ s = PricingSourceNA

/-- A concrete environment in which the pricing client initialised but every
Pricing API request fails. -/
def envNoAPI : PricingEnv :=
  ⟨true, fun _ _ => none, fun _ _ => none⟩

/-- A concrete state whose EC2 cache holds us-east-1:t3.micro and whose EBS
cache holds ebs:gp3:us-east-1. -/
def stCached : PricingState :=
  ⟨fun k => if k = "us-east-1:t3.micro" then some 0.05 else none,
   fun k => if k = "ebs:gp3:us-east-1" then some 0.08 else none,
   fun _ => none, 0⟩

/-! Branch characterizations of the pricing primitives, shared by the claim
theorems below. -/

lemma ec2Hit (env : PricingEnv) (st : PricingState) (it rg : String) (p : ℚ)
    (h : st.ec2PricingCache (rg ++ ":" ++ it) = some p) :
    GetInstanceHourlyPriceWithSource env it rg st
      = (⟨p, PricingSourceCache⟩, UpdateCacheHitStats st "EC2" rg) := by
  unfold GetInstanceHourlyPriceWithSource
  simp [h]

lemma ec2Api (env : PricingEnv) (st : PricingState) (it rg : String) (p : ℚ)
    (h1 : st.ec2PricingCache (rg ++ ":" ++ it) = none)
    (h2 : env.pricingClientAvailable = true)
    (h3 : env.ec2PriceFromAPI it rg = some p) :
    (GetInstanceHourlyPriceWithSource env it rg st).1 = ⟨p, PricingSourceAPI⟩ ∧
    (GetInstanceHourlyPriceWithSource env it rg st).2.ec2PricingCache
      = cacheInsert st.ec2PricingCache (rg ++ ":" ++ it) p ∧
    (GetInstanceHourlyPriceWithSource env it rg st).2.ebsPricingCache = st.ebsPricingCache ∧
    (GetInstanceHourlyPriceWithSource env it rg st).2.pricingAPIStats
      = updatePricingAPIStats st.pricingAPIStats "EC2" rg "success" := by
  unfold GetInstanceHourlyPriceWithSource
  simp [h1, h2, h3, UpdateAPISuccessStats, recordAPICall]

lemma ec2Fail (env : PricingEnv) (st : PricingState) (it rg : String)
    (h1 : st.ec2PricingCache (rg ++ ":" ++ it) = none)
    (h2 : env.pricingClientAvailable = true → env.ec2PriceFromAPI it rg = none) :
    (GetInstanceHourlyPriceWithSource env it rg st).1 = ⟨0, PricingSourceNA⟩ ∧
    (GetInstanceHourlyPriceWithSource env it rg st).2.ec2PricingCache = st.ec2PricingCache ∧
    (GetInstanceHourlyPriceWithSource env it rg st).2.ebsPricingCache = st.ebsPricingCache ∧
    (GetInstanceHourlyPriceWithSource env it rg st).2.pricingAPIStats
      = updatePricingAPIStats st.pricingAPIStats "EC2" rg "failure" := by
  unfold GetInstanceHourlyPriceWithSource
  cases hc : env.pricingClientAvailable with
  | false => simp [h1, hc, UpdateAPIFailureStats]
  | true => simp [h1, hc, h2 hc, UpdateAPIFailureStats, recordAPICall]

lemma ebsCostHit (env : PricingEnv) (st : PricingState) (vt rg : String) (sz : Int) (p : ℚ)
    (h : st.ebsPricingCache ("ebs:" ++ vt ++ ":" ++ rg) = some p) :
    CalculateEBSMonthlyCostWithSource env vt sz rg st
      = (⟨(sz : ℚ) * p, PricingSourceCache⟩, UpdateCacheHitStats st "EBS" rg) := by
  unfold CalculateEBSMonthlyCostWithSource
  simp [h]

lemma ebsCostApi (env : PricingEnv) (st : PricingState) (vt rg : String) (sz : Int) (p : ℚ)
    (h1 : st.ebsPricingCache ("ebs:" ++ vt ++ ":" ++ rg) = none)
    (h2 : env.pricingClientAvailable = true)
    (h3 : env.ebsPriceFromAPI vt rg = some p) :
    (CalculateEBSMonthlyCostWithSource env vt sz rg st).1 = ⟨(sz : ℚ) * p, PricingSourceAPI⟩ ∧
    (CalculateEBSMonthlyCostWithSource env vt sz rg st).2.ebsPricingCache
      = cacheInsert st.ebsPricingCache ("ebs:" ++ vt ++ ":" ++ rg) p ∧
    (CalculateEBSMonthlyCostWithSource env vt sz rg st).2.ec2PricingCache = st.ec2PricingCache ∧
    (CalculateEBSMonthlyCostWithSource env vt sz rg st).2.pricingAPIStats
      = updatePricingAPIStats st.pricingAPIStats "EBS" rg "success" := by
  unfold CalculateEBSMonthlyCostWithSource
  simp [h1, h2, h3, UpdateAPISuccessStats, recordAPICall]

lemma ebsCostFail (env : PricingEnv) (st : PricingState) (vt rg : String) (sz : Int)
    (h1 : st.ebsPricingCache ("ebs:" ++ vt ++ ":" ++ rg) = none)
    (h2 : env.pricingClientAvailable = true → env.ebsPriceFromAPI vt rg = none) :
    (CalculateEBSMonthlyCostWithSource env vt sz rg st).1
      = (ebsDefaultBranch vt sz rg st).1 ∧
    (CalculateEBSMonthlyCostWithSource env vt sz rg st).2.ebsPricingCache = st.ebsPricingCache ∧
    (CalculateEBSMonthlyCostWithSource env vt sz rg st).2.ec2PricingCache = st.ec2PricingCache ∧
    (CalculateEBSMonthlyCostWithSource env vt sz rg st).2.pricingAPIStats
      = updatePricingAPIStats st.pricingAPIStats "EBS" rg "failure" := by
  unfold CalculateEBSMonthlyCostWithSource
  cases hc : env.pricingClientAvailable with
  | false =>
      cases hf : ebsFallbackPrice vt rg with
      | none => simp [h1, hc, ebsDefaultBranch, hf, UpdateAPIFailureStats]
      | some q => simp [h1, hc, ebsDefaultBranch, hf, UpdateAPIFailureStats]
  | true =>
      cases hf : ebsFallbackPrice vt rg with
      | none => simp [h1, hc, h2 hc, ebsDefaultBranch, hf, UpdateAPIFailureStats, recordAPICall]
      | some q => simp [h1, hc, h2 hc, ebsDefaultBranch, hf, UpdateAPIFailureStats, recordAPICall]

lemma volPriceHit (env : PricingEnv) (st : PricingState) (vt rg : String) (p : ℚ)
    (h : st.ebsPricingCache ("ebs:" ++ vt ++ ":" ++ rg) = some p) :
    GetEBSVolumePrice env vt rg st = (p, UpdateCacheHitStats st "EBS" rg) := by
  unfold GetEBSVolumePrice
  simp [h]

lemma volPriceMiss (env : PricingEnv) (st : PricingState) (vt rg : String)
    (h1 : st.ebsPricingCache ("ebs:" ++ vt ++ ":" ++ rg) = none) :
    (GetEBSVolumePrice env vt rg st).2.ec2PricingCache = st.ec2PricingCache ∧
    (GetEBSVolumePrice env vt rg st).2.ebsPricingCache
      = cacheInsert st.ebsPricingCache ("ebs:" ++ vt ++ ":" ++ rg)
          (GetEBSVolumePrice env vt rg st).1 := by
  unfold GetEBSVolumePrice
  cases hc : env.pricingClientAvailable with
  | false => simp [h1, hc, UpdateAPIFailureStats, recordAPICall]
  | true =>
      cases ha : env.ebsPriceFromAPI vt rg with
      | none => simp [h1, hc, ha, UpdateAPIFailureStats, recordAPICall]
      | some q => simp [h1, hc, ha, UpdateAPISuccessStats, recordAPICall]

lemma volPriceStats (env : PricingEnv) (st : PricingState) (vt rg : String)
    (h1 : st.ebsPricingCache ("ebs:" ++ vt ++ ":" ++ rg) = none) :
    (GetEBSVolumePrice env vt rg st).2.pricingAPIStats
      = updatePricingAPIStats st.pricingAPIStats "EBS" rg
          (if env.pricingClientAvailable = true ∧ (env.ebsPriceFromAPI vt rg).isSome = true
           then "success" else "failure") := by
  unfold GetEBSVolumePrice
  cases hc : env.pricingClientAvailable with
  | false => simp [h1, hc, UpdateAPIFailureStats, recordAPICall]
  | true =>
      cases ha : env.ebsPriceFromAPI vt rg with
      | none => simp [h1, hc, ha, UpdateAPIFailureStats, recordAPICall]
      | some q => simp [h1, hc, ha, UpdateAPISuccessStats, recordAPICall]

lemma monthlyCostState (env : PricingEnv) (it rg : String) (st : PricingState) :
    (CalculateMonthlyCostWithSource env it rg st).2
      = (GetInstanceHourlyPriceWithSource env it rg st).2 := by
  by_cases h : (GetInstanceHourlyPriceWithSource env it rg st).1.source = PricingSourceNA <;>
    simp [CalculateMonthlyCostWithSource, h]

lemma monthlyCostSource (env : PricingEnv) (it rg : String) (st : PricingState) :
    (CalculateMonthlyCostWithSource env it rg st).1.source
      = (GetInstanceHourlyPriceWithSource env it rg st).1.source := by
  by_cases h : (GetInstanceHourlyPriceWithSource env it rg st).1.source = PricingSourceNA <;>
    simp [CalculateMonthlyCostWithSource, h]

lemma savingsState (env : PricingEnv) (it rg : String) (d : Int) (st : PricingState) :
    (CalculateSavingsWithSource env it rg d st).2
      = (GetInstanceHourlyPriceWithSource env it rg st).2 := by
  by_cases h : (GetInstanceHourlyPriceWithSource env it rg st).1.source = PricingSourceNA <;>
    simp [CalculateSavingsWithSource, h]

lemma savingsSource (env : PricingEnv) (it rg : String) (d : Int) (st : PricingState) :
    (CalculateSavingsWithSource env it rg d st).1.source
      = (GetInstanceHourlyPriceWithSource env it rg st).1.source := by
  by_cases h : (GetInstanceHourlyPriceWithSource env it rg st).1.source = PricingSourceNA <;>
    simp [CalculateSavingsWithSource, h]

lemma ebsMonthlyCostState (env : PricingEnv) (vt : String) (sz : Int) (rg : String)
    (st : PricingState) :
    (CalculateEBSMonthlyCost env vt sz rg st).2
      = (CalculateEBSMonthlyCostWithSource env vt sz rg st).2 := rfl

lemma ebsSavingsState (env : PricingEnv) (vt : String) (sz : Int) (rg : String) (d : Int)
    (st : PricingState) :
    (CalculateEBSSavings env vt sz rg d st).2
      = (CalculateEBSMonthlyCostWithSource env vt sz rg st).2 := by
  by_cases h : (CalculateEBSMonthlyCostWithSource env vt sz rg st).1.source = PricingSourceNA <;>
    simp [CalculateEBSSavings, h]

lemma gp2USEast1 : DefaultEBSPricesUSEast1 "gp2" = some 0.10 := rfl

lemma gp2Seoul : DefaultEBSPricesSeoul "gp2" = some 0.114 := rfl

lemma ebsFallbackPriceIsSome (vt rg : String) : (ebsFallbackPrice vt rg).isSome = true := by
  unfold ebsFallbackPrice DefaultEBSPrices
  by_cases h1 : rg = "us-east-1"
  · cases h2 : DefaultEBSPricesUSEast1 vt with
    | some p => simp [h1, h2]
    | none => simp [h1, h2, gp2USEast1]
  · by_cases h2 : rg = "ap-northeast-2"
    · cases h3 : DefaultEBSPricesSeoul vt with
      | some p => simp [h1, h2, h3]
      | none => simp [h1, h2, h3, gp2Seoul]
    · cases h3 : DefaultEBSPricesUSEast1 vt with
      | some p => simp [h1, h2, h3]
      | none => simp [h1, h2, h3, gp2USEast1]

lemma ebsDefaultBranchSpec (vt : String) (sz : Int) (rg : String) (st : PricingState) :
    (ebsDefaultBranch vt sz rg st).1.source = PricingSourceDefault ∧
    (∃ p, ebsFallbackPrice vt rg = some p ∧
          (ebsDefaultBranch vt sz rg st).1.price = (sz : ℚ) * p) ∧
    (ebsDefaultBranch vt sz rg st).2
      = UpdateAPIFailureStats st "EBS" rg := by
  obtain ⟨p, hp⟩ := Option.isSome_iff_exists.mp (ebsFallbackPriceIsSome vt rg)
  unfold ebsDefaultBranch
  simp [hp]

lemma updateCounterBump (stats : ServiceStatsMap) (service region statType : String) :
    getStatCounter (updatePricingAPIStats stats service region statType) service region statType
      = getStatCounter stats service region statType + 1 := by
  unfold getStatCounter updatePricingAPIStats
  cases h1 : stats service with
  | none => simp [h1]
  | some m =>
      cases h2 : m region with
      | none => simp [h1, h2]
      | some c => simp [h1, h2]

lemma updateCounterOther (stats : ServiceStatsMap) (service region statType c2 : String)
    (h : c2 ≠ statType) :
    getStatCounter (updatePricingAPIStats stats service region statType) service region c2
      = getStatCounter stats service region c2 := by
  unfold getStatCounter updatePricingAPIStats
  cases h1 : stats service with
  | none => simp [h1, h]
  | some m =>
      cases h2 : m region with
      | none => simp [h1, h2, h]
      | some c => simp [h1, h2, h]

lemma updateCounterElsewhere (stats : ServiceStatsMap) (service region statType s2 r2 c2 : String)
    (h : s2 ≠ service ∨ r2 ≠ region) :
    getStatCounter (updatePricingAPIStats stats service region statType) s2 r2 c2
      = getStatCounter stats s2 r2 c2 := by
  by_cases hs : s2 = service
  · have hr : r2 ≠ region := by
      rcases h with h | h
      · exact absurd hs h
      · exact h
    subst hs
    unfold getStatCounter updatePricingAPIStats
    cases h1 : stats s2 with
    | none => simp [h1, hr]
    | some m =>
        cases h2 : m r2 with
        | none => simp [h1, h2, hr]
        | some c => simp [h1, h2, hr]
  · unfold getStatCounter updatePricingAPIStats
    simp [hs]

lemma updateCounterMono (stats : ServiceStatsMap) (service region statType s2 r2 c2 : String) :
    getStatCounter stats s2 r2 c2
      ≤ getStatCounter (updatePricingAPIStats stats service region statType) s2 r2 c2 := by
  by_cases hs : s2 = service
  · by_cases hr : r2 = region
    · subst hs; subst hr
      by_cases hc : c2 = statType
      · subst hc
        rw [updateCounterBump]
        exact Nat.le_succ _
      · rw [updateCounterOther stats s2 r2 statType c2 hc]
    · rw [updateCounterElsewhere stats service region statType s2 r2 c2 (Or.inr hr)]
  · rw [updateCounterElsewhere stats service region statType s2 r2 c2 (Or.inl hs)]

lemma updateCreatesEntry (stats : ServiceStatsMap) (service region statType : String) :
    ((updatePricingAPIStats stats service region statType) service).isSome = true ∧
    (∀ m, (updatePricingAPIStats stats service region statType) service = some m →
          (m region).isSome = true) := by
  unfold updatePricingAPIStats
  constructor
  · simp
  · intro m hm
    simp only [if_pos rfl] at hm
    obtain rfl := Option.some.inj hm
    simp

lemma ec2LookupStats (env : PricingEnv) (st : PricingState) (it rg : String) :
    (GetInstanceHourlyPriceWithSource env it rg st).2.pricingAPIStats
      = updatePricingAPIStats st.pricingAPIStats "EC2" rg
          (if (st.ec2PricingCache (rg ++ ":" ++ it)).isSome = true then "cache"
           else if env.pricingClientAvailable = true ∧ (env.ec2PriceFromAPI it rg).isSome = true
           then "success" else "failure") := by
  cases hc : st.ec2PricingCache (rg ++ ":" ++ it) with
  | some p =>
      rw [ec2Hit env st it rg p hc]
      simp [hc, UpdateCacheHitStats]
  | none =>
      cases hca : env.pricingClientAvailable with
      | true =>
          cases ha : env.ec2PriceFromAPI it rg with
          | some p =>
              rw [(ec2Api env st it rg p hc hca ha).2.2.2]
              simp [hc, hca, ha]
          | none =>
              rw [(ec2Fail env st it rg hc (fun _ => ha)).2.2.2]
              simp [hc, hca, ha]
      | false =>
          rw [(ec2Fail env st it rg hc (by simp [hca])).2.2.2]
          simp [hc, hca]

lemma ebsLookupStats (env : PricingEnv) (st : PricingState) (vt rg : String) (sz : Int) :
    (CalculateEBSMonthlyCostWithSource env vt sz rg st).2.pricingAPIStats
      = updatePricingAPIStats st.pricingAPIStats "EBS" rg
          (if (st.ebsPricingCache ("ebs:" ++ vt ++ ":" ++ rg)).isSome = true then "cache"
           else if env.pricingClientAvailable = true ∧ (env.ebsPriceFromAPI vt rg).isSome = true
           then "success" else "failure") := by
  cases hc : st.ebsPricingCache ("ebs:" ++ vt ++ ":" ++ rg) with
  | some p =>
      rw [ebsCostHit env st vt rg sz p hc]
      simp [hc, UpdateCacheHitStats]
  | none =>
      cases hca : env.pricingClientAvailable with
      | true =>
          cases ha : env.ebsPriceFromAPI vt rg with
          | some p =>
              rw [(ebsCostApi env st vt rg sz p hc hca ha).2.2.2]
              simp [hc, hca, ha]
          | none =>
              rw [(ebsCostFail env st vt rg sz hc (fun _ => ha)).2.2.2]
              simp [hc, hca, ha]
      | false =>
          rw [(ebsCostFail env st vt rg sz hc (by simp [hca])).2.2.2]
          simp [hc, hca]

lemma volLookupStats (env : PricingEnv) (st : PricingState) (vt rg : String) :
    (GetEBSVolumePrice env vt rg st).2.pricingAPIStats
      = updatePricingAPIStats st.pricingAPIStats "EBS" rg
          (if (st.ebsPricingCache ("ebs:" ++ vt ++ ":" ++ rg)).isSome = true then "cache"
           else if env.pricingClientAvailable = true ∧ (env.ebsPriceFromAPI vt rg).isSome = true
           then "success" else "failure") := by
  cases hc : st.ebsPricingCache ("ebs:" ++ vt ++ ":" ++ rg) with
  | some p =>
      rw [volPriceHit env st vt rg p hc]
      simp [hc, UpdateCacheHitStats]
  | none =>
      rw [volPriceStats env st vt rg hc]
      simp [hc]

lemma ec2Preserve (env : PricingEnv) (st : PricingState) (it rg k : String) (p : ℚ)
    (h : st.ec2PricingCache k = some p) :
    (GetInstanceHourlyPriceWithSource env it rg st).2.ec2PricingCache k = some p := by
  cases hc : st.ec2PricingCache (rg ++ ":" ++ it) with
  | some q =>
      rw [ec2Hit env st it rg q hc]
      exact h
  | none =>
      cases hca : env.pricingClientAvailable with
      | true =>
          cases ha : env.ec2PriceFromAPI it rg with
          | some q =>
              rw [(ec2Api env st it rg q hc hca ha).2.1]
              unfold cacheInsert
              by_cases hk : k = rg ++ ":" ++ it
              · rw [hk] at h
                rw [h] at hc
                cases hc
              · simp [hk, h]
          | none =>
              rw [(ec2Fail env st it rg hc (fun _ => ha)).2.1]
              exact h
      | false =>
          rw [(ec2Fail env st it rg hc (by simp [hca])).2.1]
          exact h

lemma ec2LeavesEbs (env : PricingEnv) (st : PricingState) (it rg : String) :
    (GetInstanceHourlyPriceWithSource env it rg st).2.ebsPricingCache = st.ebsPricingCache := by
  cases hc : st.ec2PricingCache (rg ++ ":" ++ it) with
  | some q =>
      rw [ec2Hit env st it rg q hc]
      rfl
  | none =>
      cases hca : env.pricingClientAvailable with
      | true =>
          cases ha : env.ec2PriceFromAPI it rg with
          | some q => exact (ec2Api env st it rg q hc hca ha).2.2.1
          | none => exact (ec2Fail env st it rg hc (fun _ => ha)).2.2.1
      | false => exact (ec2Fail env st it rg hc (by simp [hca])).2.2.1

lemma ebsCostPreserve (env : PricingEnv) (st : PricingState) (vt rg k : String) (sz : Int)
    (p : ℚ) (h : st.ebsPricingCache k = some p) :
    (CalculateEBSMonthlyCostWithSource env vt sz rg st).2.ebsPricingCache k = some p := by
  cases hc : st.ebsPricingCache ("ebs:" ++ vt ++ ":" ++ rg) with
  | some q =>
      rw [ebsCostHit env st vt rg sz q hc]
      exact h
  | none =>
      cases hca : env.pricingClientAvailable with
      | true =>
          cases ha : env.ebsPriceFromAPI vt rg with
          | some q =>
              rw [(ebsCostApi env st vt rg sz q hc hca ha).2.1]
              unfold cacheInsert
              by_cases hk : k = "ebs:" ++ vt ++ ":" ++ rg
              · rw [hk] at h
                rw [h] at hc
                cases hc
              · simp [hk, h]
          | none =>
              rw [(ebsCostFail env st vt rg sz hc (fun _ => ha)).2.1]
              exact h
      | false =>
          rw [(ebsCostFail env st vt rg sz hc (by simp [hca])).2.1]
          exact h

lemma ebsCostLeavesEc2 (env : PricingEnv) (st : PricingState) (vt rg : String) (sz : Int) :
    (CalculateEBSMonthlyCostWithSource env vt sz rg st).2.ec2PricingCache
      = st.ec2PricingCache := by
  cases hc : st.ebsPricingCache ("ebs:" ++ vt ++ ":" ++ rg) with
  | some q =>
      rw [ebsCostHit env st vt rg sz q hc]
      rfl
  | none =>
      cases hca : env.pricingClientAvailable with
      | true =>
          cases ha : env.ebsPriceFromAPI vt rg with
          | some q => exact (ebsCostApi env st vt rg sz q hc hca ha).2.2.1
          | none => exact (ebsCostFail env st vt rg sz hc (fun _ => ha)).2.2.1
      | false => exact (ebsCostFail env st vt rg sz hc (by simp [hca])).2.2.1

lemma volPricePreserve (env : PricingEnv) (st : PricingState) (vt rg k : String) (p : ℚ)
    (h : st.ebsPricingCache k = some p) :
    (GetEBSVolumePrice env vt rg st).2.ebsPricingCache k = some p := by
  cases hc : st.ebsPricingCache ("ebs:" ++ vt ++ ":" ++ rg) with
  | some q =>
      rw [volPriceHit env st vt rg q hc]
      exact h
  | none =>
      rw [(volPriceMiss env st vt rg hc).2]
      unfold cacheInsert
      by_cases hk : k = "ebs:" ++ vt ++ ":" ++ rg
      · rw [hk] at h
        rw [h] at hc
        cases hc
      · simp [hk, h]

lemma volPriceLeavesEc2 (env : PricingEnv) (st : PricingState) (vt rg : String) :
    (GetEBSVolumePrice env vt rg st).2.ec2PricingCache = st.ec2PricingCache := by
  cases hc : st.ebsPricingCache ("ebs:" ++ vt ++ ":" ++ rg) with
  | some q =>
      rw [volPriceHit env st vt rg q hc]
      rfl
  | none => exact (volPriceMiss env st vt rg hc).1

lemma runOpPreservesEc2 (env : PricingEnv) (st : PricingState) (op : PricingOp)
    (k : String) (p : ℚ) (h : st.ec2PricingCache k = some p) :
    (runPricingOp op env st).ec2PricingCache k = some p := by
  cases op with
  | getInstanceHourlyPriceWithSource it rg => exact ec2Preserve env st it rg k p h
  | getInstanceHourlyPrice it rg => exact ec2Preserve env st it rg k p h
  | calculateMonthlyCostWithSource it rg =>
      show (CalculateMonthlyCostWithSource env it rg st).2.ec2PricingCache k = some p
      rw [monthlyCostState]
      exact ec2Preserve env st it rg k p h
  | calculateMonthlyCost it rg =>
      show (CalculateMonthlyCost env it rg st).2.ec2PricingCache k = some p
      show (CalculateMonthlyCostWithSource env it rg st).2.ec2PricingCache k = some p
      rw [monthlyCostState]
      exact ec2Preserve env st it rg k p h
  | calculateSavingsWithSource it rg d =>
      show (CalculateSavingsWithSource env it rg d st).2.ec2PricingCache k = some p
      rw [savingsState]
      exact ec2Preserve env st it rg k p h
  | calculateSavings it rg d =>
      show (CalculateSavingsWithSource env it rg d st).2.ec2PricingCache k = some p
      rw [savingsState]
      exact ec2Preserve env st it rg k p h
  | getEBSVolumePrice vt rg =>
      show (GetEBSVolumePrice env vt rg st).2.ec2PricingCache k = some p
      rw [volPriceLeavesEc2]
      exact h
  | calculateEBSMonthlyCostWithSource vt sz rg =>
      show (CalculateEBSMonthlyCostWithSource env vt sz rg st).2.ec2PricingCache k = some p
      rw [ebsCostLeavesEc2]
      exact h
  | calculateEBSMonthlyCost vt sz rg =>
      show (CalculateEBSMonthlyCostWithSource env vt sz rg st).2.ec2PricingCache k = some p
      rw [ebsCostLeavesEc2]
      exact h
  | calculateEBSSavings vt sz rg d =>
      show (CalculateEBSSavings env vt sz rg d st).2.ec2PricingCache k = some p
      rw [ebsSavingsState, ebsCostLeavesEc2]
      exact h

lemma runOpPreservesEbs (env : PricingEnv) (st : PricingState) (op : PricingOp)
    (k : String) (p : ℚ) (h : st.ebsPricingCache k = some p) :
    (runPricingOp op env st).ebsPricingCache k = some p := by
  cases op with
  | getInstanceHourlyPriceWithSource it rg =>
      show (GetInstanceHourlyPriceWithSource env it rg st).2.ebsPricingCache k = some p
      rw [ec2LeavesEbs]
      exact h
  | getInstanceHourlyPrice it rg =>
      show (GetInstanceHourlyPriceWithSource env it rg st).2.ebsPricingCache k = some p
      rw [ec2LeavesEbs]
      exact h
  | calculateMonthlyCostWithSource it rg =>
      show (CalculateMonthlyCostWithSource env it rg st).2.ebsPricingCache k = some p
      rw [monthlyCostState, ec2LeavesEbs]
      exact h
  | calculateMonthlyCost it rg =>
      show (CalculateMonthlyCostWithSource env it rg st).2.ebsPricingCache k = some p
      rw [monthlyCostState, ec2LeavesEbs]
      exact h
  | calculateSavingsWithSource it rg d =>
      show (CalculateSavingsWithSource env it rg d st).2.ebsPricingCache k = some p
      rw [savingsState, ec2LeavesEbs]
      exact h
  | calculateSavings it rg d =>
      show (CalculateSavingsWithSource env it rg d st).2.ebsPricingCache k = some p
      rw [savingsState, ec2LeavesEbs]
      exact h
  | getEBSVolumePrice vt rg => exact volPricePreserve env st vt rg k p h
  | calculateEBSMonthlyCostWithSource vt sz rg => exact ebsCostPreserve env st vt rg k sz p h
  | calculateEBSMonthlyCost vt sz rg => exact ebsCostPreserve env st vt rg k sz p h
  | calculateEBSSavings vt sz rg d =>
      show (CalculateEBSSavings env vt sz rg d st).2.ebsPricingCache k = some p
      rw [ebsSavingsState]
      exact ebsCostPreserve env st vt rg k sz p h

lemma ec2SourceCases (env : PricingEnv) (st : PricingState) (it rg : String) :
    ((GetInstanceHourlyPriceWithSource env it rg st).1.source = PricingSourceCache
        ↔ (st.ec2PricingCache (rg ++ ":" ++ it)).isSome = true) ∧
    ((GetInstanceHourlyPriceWithSource env it rg st).1.source = PricingSourceAPI
        ↔ st.ec2PricingCache (rg ++ ":" ++ it) = none ∧
          env.pricingClientAvailable = true ∧ (env.ec2PriceFromAPI it rg).isSome = true) ∧
    ((GetInstanceHourlyPriceWithSource env it rg st).1.source = PricingSourceNA
        ↔ st.ec2PricingCache (rg ++ ":" ++ it) = none ∧
          ¬(env.pricingClientAvailable = true ∧ (env.ec2PriceFromAPI it rg).isSome = true)) ∧
    (GetInstanceHourlyPriceWithSource env it rg st).1.source ≠ PricingSourceDefault ∧
    ((GetInstanceHourlyPriceWithSource env it rg st).1.source = PricingSourceNA →
        (GetInstanceHourlyPriceWithSource env it rg st).1.price = 0) ∧
    IsPricingSource (GetInstanceHourlyPriceWithSource env it rg st).1.source := by
  cases hc : st.ec2PricingCache (rg ++ ":" ++ it) with
  | some p =>
      rw [ec2Hit env st it rg p hc]
      simp [PricingSourceAPI, PricingSourceCache, PricingSourceDefault, PricingSourceNA,
        IsPricingSource]
  | none =>
      cases hca : env.pricingClientAvailable with
      | true =>
          cases ha : env.ec2PriceFromAPI it rg with
          | some p =>
              rw [(ec2Api env st it rg p hc hca ha).1]
              simp [PricingSourceAPI, PricingSourceCache, PricingSourceDefault, PricingSourceNA,
                IsPricingSource]
          | none =>
              rw [(ec2Fail env st it rg hc (fun _ => ha)).1]
              simp [PricingSourceAPI, PricingSourceCache, PricingSourceDefault, PricingSourceNA,
                IsPricingSource]
      | false =>
          rw [(ec2Fail env st it rg hc (by simp [hca])).1]
          simp [PricingSourceAPI, PricingSourceCache, PricingSourceDefault, PricingSourceNA,
            IsPricingSource]

lemma ebsSourceCases (env : PricingEnv) (st : PricingState) (vt rg : String) (sz : Int) :
    ((CalculateEBSMonthlyCostWithSource env vt sz rg st).1.source = PricingSourceCache
        ↔ (st.ebsPricingCache ("ebs:" ++ vt ++ ":" ++ rg)).isSome = true) ∧
    ((CalculateEBSMonthlyCostWithSource env vt sz rg st).1.source = PricingSourceAPI
        ↔ st.ebsPricingCache ("ebs:" ++ vt ++ ":" ++ rg) = none ∧
          env.pricingClientAvailable = true ∧ (env.ebsPriceFromAPI vt rg).isSome = true) ∧
    ((CalculateEBSMonthlyCostWithSource env vt sz rg st).1.source = PricingSourceDefault
        ↔ st.ebsPricingCache ("ebs:" ++ vt ++ ":" ++ rg) = none ∧
          ¬(env.pricingClientAvailable = true ∧ (env.ebsPriceFromAPI vt rg).isSome = true) ∧
          (ebsFallbackPrice vt rg).isSome = true) ∧
    (CalculateEBSMonthlyCostWithSource env vt sz rg st).1.source ≠ PricingSourceNA ∧
    IsPricingSource (CalculateEBSMonthlyCostWithSource env vt sz rg st).1.source := by
  cases hc : st.ebsPricingCache ("ebs:" ++ vt ++ ":" ++ rg) with
  | some p =>
      rw [ebsCostHit env st vt rg sz p hc]
      simp [PricingSourceAPI, PricingSourceCache, PricingSourceDefault, PricingSourceNA,
        IsPricingSource]
  | none =>
      cases hca : env.pricingClientAvailable with
      | true =>
          cases ha : env.ebsPriceFromAPI vt rg with
          | some p =>
              rw [(ebsCostApi env st vt rg sz p hc hca ha).1]
              simp [PricingSourceAPI, PricingSourceCache, PricingSourceDefault, PricingSourceNA,
                IsPricingSource]
          | none =>
              rw [(ebsCostFail env st vt rg sz hc (fun _ => ha)).1,
                (ebsDefaultBranchSpec vt sz rg st).1]
              simp [PricingSourceAPI, PricingSourceCache, PricingSourceDefault, PricingSourceNA,
                IsPricingSource, ebsFallbackPriceIsSome]
      | false =>
          rw [(ebsCostFail env st vt rg sz hc (by simp [hca])).1,
            (ebsDefaultBranchSpec vt sz rg st).1]
          simp [PricingSourceAPI, PricingSourceCache, PricingSourceDefault, PricingSourceNA,
            IsPricingSource, ebsFallbackPriceIsSome]

lemma ebsCostNeverNA (env : PricingEnv) (st : PricingState) (vt rg : String) (sz : Int) :
    (CalculateEBSMonthlyCostWithSource env vt sz rg st).1.source ≠ PricingSourceNA :=
  (ebsSourceCases env st vt rg sz).2.2.2.1

lemma ec2NAPriceZero (env : PricingEnv) (st : PricingState) (it rg : String)
    (h : (GetInstanceHourlyPriceWithSource env it rg st).1.source = PricingSourceNA) :
    (GetInstanceHourlyPriceWithSource env it rg st).1.price = 0 :=
  (ec2SourceCases env st it rg).2.2.2.2.1 h

lemma monthlyCostNAPriceZero (env : PricingEnv) (st : PricingState) (it rg : String)
    (h : (CalculateMonthlyCostWithSource env it rg st).1.source = PricingSourceNA) :
    (CalculateMonthlyCostWithSource env it rg st).1.price = 0 := by
  by_cases hb : (GetInstanceHourlyPriceWithSource env it rg st).1.source = PricingSourceNA
  · simp [CalculateMonthlyCostWithSource, hb]
  · rw [monthlyCostSource] at h
    exact absurd h hb

lemma savingsNAPriceZero (env : PricingEnv) (st : PricingState) (it rg : String) (d : Int)
    (h : (CalculateSavingsWithSource env it rg d st).1.source = PricingSourceNA) :
    (CalculateSavingsWithSource env it rg d st).1.price = 0 := by
  by_cases hb : (GetInstanceHourlyPriceWithSource env it rg st).1.source = PricingSourceNA
  · simp [CalculateSavingsWithSource, hb]
  · rw [savingsSource] at h
    exact absurd h hb

lemma runOpStatsExists (env : PricingEnv) (st : PricingState) (op : PricingOp) :
    ∃ service region statType,
      (runPricingOp op env st).pricingAPIStats
        = updatePricingAPIStats st.pricingAPIStats service region statType := by
  cases op with
  | getInstanceHourlyPriceWithSource it rg => exact ⟨_, _, _, ec2LookupStats env st it rg⟩
  | getInstanceHourlyPrice it rg => exact ⟨_, _, _, ec2LookupStats env st it rg⟩
  | calculateMonthlyCostWithSource it rg =>
      have h : (CalculateMonthlyCostWithSource env it rg st).2.pricingAPIStats
          = (GetInstanceHourlyPriceWithSource env it rg st).2.pricingAPIStats := by
        rw [monthlyCostState]
      exact ⟨_, _, _, h.trans (ec2LookupStats env st it rg)⟩
  | calculateMonthlyCost it rg =>
      have h : (CalculateMonthlyCostWithSource env it rg st).2.pricingAPIStats
          = (GetInstanceHourlyPriceWithSource env it rg st).2.pricingAPIStats := by
        rw [monthlyCostState]
      exact ⟨_, _, _, h.trans (ec2LookupStats env st it rg)⟩
  | calculateSavingsWithSource it rg d =>
      have h : (CalculateSavingsWithSource env it rg d st).2.pricingAPIStats
          = (GetInstanceHourlyPriceWithSource env it rg st).2.pricingAPIStats := by
        rw [savingsState]
      exact ⟨_, _, _, h.trans (ec2LookupStats env st it rg)⟩
  | calculateSavings it rg d =>
      have h : (CalculateSavingsWithSource env it rg d st).2.pricingAPIStats
          = (GetInstanceHourlyPriceWithSource env it rg st).2.pricingAPIStats := by
        rw [savingsState]
      exact ⟨_, _, _, h.trans (ec2LookupStats env st it rg)⟩
  | getEBSVolumePrice vt rg => exact ⟨_, _, _, volLookupStats env st vt rg⟩
  | calculateEBSMonthlyCostWithSource vt sz rg =>
      exact ⟨_, _, _, ebsLookupStats env st vt rg sz⟩
  | calculateEBSMonthlyCost vt sz rg => exact ⟨_, _, _, ebsLookupStats env st vt rg sz⟩
  | calculateEBSSavings vt sz rg d =>
      have h : (CalculateEBSSavings env vt sz rg d st).2.pricingAPIStats
          = (CalculateEBSMonthlyCostWithSource env vt sz rg st).2.pricingAPIStats := by
        rw [ebsSavingsState]
      exact ⟨_, _, _, h.trans (ebsLookupStats env st vt rg sz)⟩

lemma instancesLoopIds (env : ScanEnv) (rg : String) :
    ∀ (l : List EC2Instance) (st : PricingState),
      ((instancesLoop env rg l st).1.map fun i => i.instanceID)
        = l.map fun i => i.instanceId := by
  intro l
  induction l with
  | nil => intro st; rfl
  | cons inst rest ih =>
      intro st
      simp only [instancesLoop, List.map_cons]
      rw [ih]
      rfl

lemma volumesLoopIds (env : ScanEnv) (rg : String) :
    ∀ (l : List EBSVolume) (st : PricingState),
      ((volumesLoop env rg l st).1.map fun v => v.volumeID)
        = l.map fun v => v.volumeId := by
  intro l
  induction l with
  | nil => intro st; rfl
  | cons v rest ih =>
      intro st
      simp only [volumesLoop, List.map_cons]
      rw [ih]
      rfl

lemma filterFlatten {α : Type} (p : α → Bool) :
    ∀ (l : List (List α)), (l.map fun xs => xs.filter p).flatten = l.flatten.filter p := by
  intro l
  induction l with
  | nil => rfl
  | cons xs rest ih => simp only [List.map_cons, List.flatten_cons, List.filter_append, ih]

/-- C10: GetPricingMarker maps API to API, Cache to CACHE, N/A to N/A, and
every other source string — including the Default provenance tag produced by
the pricing functions — to "-". -/
theorem getPricingMarkerSpec :
    GetPricingMarker PricingSourceAPI = "API" ∧
    GetPricingMarker PricingSourceCache = "CACHE" ∧
    GetPricingMarker PricingSourceNA = "N/A" ∧
    GetPricingMarker PricingSourceDefault = "-" ∧
    (∀ s : String, s ≠ "API" → s ≠ "Cache" → s ≠ "N/A" → GetPricingMarker s = "-") := by
  refine ⟨by decide, by decide, by decide, by decide, ?_⟩
  intro s h1 h2 h3
  unfold GetPricingMarker
  rw [if_neg h1, if_neg h2, if_neg h3]

/-- Witness for C10: the Default tag is rendered "-". -/
theorem getPricingMarkerSpecWitness : GetPricingMarker "Default" = "-" :=
  getPricingMarkerSpec.2.2.2.2 "Default" (by decide) (by decide) (by decide)

/-- C9: the EBS monthly-cost fallback chain always yields a price — the
us-east-1 default table has a gp2 entry — so CalculateEBSMonthlyCostWithSource
never reports the source N/A: its final 0-with-N/A branch is unreachable. -/
theorem ebsDefaultAlwaysSupplies :
    ∀ (volumeType region : String),
      (ebsFallbackPrice volumeType region).isSome = true ∧
      DefaultEBSPricesUSEast1 "gp2" = some 0.10 ∧
      ∀ (env : PricingEnv) (sizeGB : Int) (st : PricingState),
        (CalculateEBSMonthlyCostWithSource env volumeType sizeGB region st).1.source
          ≠ PricingSourceNA :=
  fun vt rg =>
    ⟨ebsFallbackPriceIsSome vt rg, rfl, fun env sz st => ebsCostNeverNA env st vt rg sz⟩

/-- Witness for C9 at a region absent from the default table. -/
theorem ebsDefaultAlwaysSuppliesWitness :
    (ebsFallbackPrice "gp3" "eu-west-1").isSome = true ∧
    (CalculateEBSMonthlyCostWithSource envNoAPI "gp3" 100 "eu-west-1" initialPricingState).1.source
      ≠ PricingSourceNA :=
  ⟨(ebsDefaultAlwaysSupplies "gp3" "eu-west-1").1,
   (ebsDefaultAlwaysSupplies "gp3" "eu-west-1").2.2 envNoAPI 100 initialPricingState⟩

/-- C8: CalculateEBSSavings ignores its days argument and equals the monthly
cost reported by CalculateEBSMonthlyCostWithSource, while the EC2
CalculateSavingsWithSource scales the monthly cost by elapsedDays/30. -/
theorem ebsSavingsIgnoresDays :
    ∀ (env : PricingEnv) (volumeType : String) (sizeGB : Int) (region : String)
      (d1 d2 : Int) (st : PricingState) (instanceType : String) (d : Int),
      CalculateEBSSavings env volumeType sizeGB region d1 st
        = CalculateEBSSavings env volumeType sizeGB region d2 st ∧
      (CalculateEBSSavings env volumeType sizeGB region d1 st).1
        = (CalculateEBSMonthlyCostWithSource env volumeType sizeGB region st).1.price ∧
      (CalculateSavingsWithSource env instanceType region d st).1.price
        = (CalculateMonthlyCostWithSource env instanceType region st).1.price * (d : ℚ) / 30 := by
  intro env vt sz rg d1 d2 st it d
  refine ⟨rfl, ?_, ?_⟩
  · simp [CalculateEBSSavings, ebsCostNeverNA env st vt rg sz]
  · by_cases h : (GetInstanceHourlyPriceWithSource env it rg st).1.source = PricingSourceNA
    · simp [CalculateSavingsWithSource, CalculateMonthlyCostWithSource, h]
    · simp [CalculateSavingsWithSource, CalculateMonthlyCostWithSource, h]

/-- Counterexample to C1 as stated: with the client available, an empty cache
and a failing Pricing API, the EC2 hourly lookup reports the price as
unavailable (0 with source N/A) instead of falling back to a static default
table. -/
theorem ec2FallbackCounterexample :
    (GetInstanceHourlyPriceWithSource envNoAPI "t3.micro" "us-east-1" initialPricingState).1
      = ⟨0, PricingSourceNA⟩ ∧
    (GetInstanceHourlyPriceWithSource envNoAPI "t3.micro" "us-east-1" initialPricingState).1.source
      ≠ PricingSourceDefault := by
  exact ⟨rfl, by decide⟩

/-- C1 amended: on a cache miss with the Pricing API failing or unavailable,
the EBS per-GB-month lookup falls back to the static default price tables and
returns a Default-source price, while the EC2 hourly lookup performs no
static fallback and returns 0 with source N/A. -/
theorem threeTierFallbackAmended :
    ∀ (env : PricingEnv) (volumeType : String) (sizeGB : Int) (region instanceType : String)
      (st : PricingState),
      (st.ebsPricingCache ("ebs:" ++ volumeType ++ ":" ++ region) = none →
        (env.pricingClientAvailable = true → env.ebsPriceFromAPI volumeType region = none) →
        (CalculateEBSMonthlyCostWithSource env volumeType sizeGB region st).1.source
          = PricingSourceDefault ∧
        ∃ p, ebsFallbackPrice volumeType region = some p ∧
          (CalculateEBSMonthlyCostWithSource env volumeType sizeGB region st).1.price
            = (sizeGB : ℚ) * p) ∧
      (st.ec2PricingCache (region ++ ":" ++ instanceType) = none →
        (env.pricingClientAvailable = true → env.ec2PriceFromAPI instanceType region = none) →
        (GetInstanceHourlyPriceWithSource env instanceType region st).1
          = ⟨0, PricingSourceNA⟩) := by
  intro env vt sz rg it st
  constructor
  · intro h1 h2
    rw [(ebsCostFail env st vt rg sz h1 h2).1]
    exact ⟨(ebsDefaultBranchSpec vt sz rg st).1, (ebsDefaultBranchSpec vt sz rg st).2.1⟩
  · intro h1 h2
    exact (ec2Fail env st it rg h1 h2).1

/-- Witness for the amended C1. -/
theorem threeTierFallbackAmendedWitness :
    (CalculateEBSMonthlyCostWithSource envNoAPI "gp3" 100 "us-east-1" initialPricingState).1.source
      = PricingSourceDefault ∧
    (GetInstanceHourlyPriceWithSource envNoAPI "t2.micro" "us-east-1" initialPricingState).1
      = ⟨0, PricingSourceNA⟩ :=
  ⟨((threeTierFallbackAmended envNoAPI "gp3" 100 "us-east-1" "t2.micro" initialPricingState).1
      rfl (fun _ => rfl)).1,
   (threeTierFallbackAmended envNoAPI "gp3" 100 "us-east-1" "t2.micro" initialPricingState).2
      rfl (fun _ => rfl)⟩

/-- C4: the region fan-out refines the sequential scan — the aggregated data
of processResults over the fan-out results is the in-order concatenation of
the successful regions, exactly as calling getDataForRegion once per region
in list order, and the failed regions are reported (region, error) in order
without affecting the other regions. -/
theorem processServiceRefinesSequential :
    ∀ (T : Type) (getDataForRegion : String → List T × Option String) (regions : List String),
      processResultsData (processServiceResults getDataForRegion regions)
        = sequentialScanData getDataForRegion regions ∧
      processResultsErrors (processServiceResults getDataForRegion regions)
        = regions.filterMap fun r => ((getDataForRegion r).2).map fun e => (r, e) := by
  intro T f regions
  induction regions with
  | nil => exact ⟨rfl, rfl⟩
  | cons r rs ih =>
      have hstep : processServiceResults f (r :: rs)
          = ⟨(f r).1, (f r).2, r⟩ :: processServiceResults f rs := rfl
      rw [hstep]
      constructor
      · simp only [processResultsData, sequentialScanData]
        cases h : (f r).2 with
        | none => simp [h, ih.1]
        | some e => simp [h, ih.1]
      · simp only [processResultsErrors, List.filterMap_cons]
        cases h : (f r).2 with
        | none => simp [h, ih.2]
        | some e => simp [h, ih.2]

/-- C5: the idle predicates are the stated state heuristics — GetStoppedInstances
yields exactly one InstanceInfo, in order, for each instance of the response
whose state is "stopped" and none for any other state, and GetAvailableVolumes
yields exactly one VolumeInfo for each volume whose state is "available". -/
theorem idleStateHeuristics :
    ∀ (env : ScanEnv) (region : String) (reservations : List (List EC2Instance))
      (volumes : List EBSVolume) (stI stV : PricingState),
      ((GetStoppedInstances env region reservations stI).1.map fun i => i.instanceID)
        = ((reservations.flatten.filter fun i => i.state = "stopped").map
            fun i => i.instanceId) ∧
      ((GetAvailableVolumes env region volumes stV).1.map fun v => v.volumeID)
        = ((volumes.filter fun v => v.state = "available").map fun v => v.volumeId) := by
  intro env rg rs vols stI stV
  constructor
  · show ((instancesLoop env rg (DescribeInstancesStoppedFilter rs).flatten stI).1.map
        fun i => i.instanceID) = _
    rw [instancesLoopIds]
    unfold DescribeInstancesStoppedFilter
    rw [filterFlatten]
  · show ((volumesLoop env rg (DescribeVolumesAvailableFilter vols) stV).1.map
        fun v => v.volumeID) = _
    rw [volumesLoopIds]
    rfl

/-- C2: pricing cache entries are never evicted, expired or overwritten — every
pkg/pricing operation preserves every existing cache entry, and a lookup whose
key is cached returns the stored price with source Cache, leaves both caches
untouched, and performs no Pricing API call. -/
theorem pricingCacheImmutable :
    ∀ (env : PricingEnv) (st : PricingState),
      (∀ (op : PricingOp) (k : String) (p : ℚ),
        st.ec2PricingCache k = some p → (runPricingOp op env st).ec2PricingCache k = some p) ∧
      (∀ (op : PricingOp) (k : String) (p : ℚ),
        st.ebsPricingCache k = some p → (runPricingOp op env st).ebsPricingCache k = some p) ∧
      (∀ (instanceType region : String) (p : ℚ),
        st.ec2PricingCache (region ++ ":" ++ instanceType) = some p →
        GetInstanceHourlyPriceWithSource env instanceType region st
          = (⟨p, PricingSourceCache⟩, UpdateCacheHitStats st "EC2" region) ∧
        (GetInstanceHourlyPriceWithSource env instanceType region st).2.apiCalls = st.apiCalls ∧
        (GetInstanceHourlyPriceWithSource env instanceType region st).2.ec2PricingCache
          = st.ec2PricingCache ∧
        (GetInstanceHourlyPriceWithSource env instanceType region st).2.ebsPricingCache
          = st.ebsPricingCache) ∧
      (∀ (volumeType region : String) (sizeGB : Int) (p : ℚ),
        st.ebsPricingCache ("ebs:" ++ volumeType ++ ":" ++ region) = some p →
        CalculateEBSMonthlyCostWithSource env volumeType sizeGB region st
          = (⟨(sizeGB : ℚ) * p, PricingSourceCache⟩, UpdateCacheHitStats st "EBS" region) ∧
        (CalculateEBSMonthlyCostWithSource env volumeType sizeGB region st).2.apiCalls
          = st.apiCalls) ∧
      (∀ (volumeType region : String) (p : ℚ),
        st.ebsPricingCache ("ebs:" ++ volumeType ++ ":" ++ region) = some p →
        GetEBSVolumePrice env volumeType region st
          = (p, UpdateCacheHitStats st "EBS" region) ∧
        (GetEBSVolumePrice env volumeType region st).2.apiCalls = st.apiCalls) := by
  intro env st
  refine ⟨fun op k p h => runOpPreservesEc2 env st op k p h,
          fun op k p h => runOpPreservesEbs env st op k p h,
          fun it rg p h => ?_, fun vt rg sz p h => ?_, fun vt rg p h => ?_⟩
  · rw [ec2Hit env st it rg p h]
    exact ⟨rfl, rfl, rfl, rfl⟩
  · rw [ebsCostHit env st vt rg sz p h]
    exact ⟨rfl, rfl⟩
  · rw [volPriceHit env st vt rg p h]
    exact ⟨rfl, rfl⟩

/-- Witness for C2 on a concrete cached state. -/
theorem pricingCacheImmutableWitness :
    stCached.ec2PricingCache ("us-east-1" ++ ":" ++ "t3.micro") = some 0.05 ∧
    GetInstanceHourlyPriceWithSource envNoAPI "t3.micro" "us-east-1" stCached
      = (⟨0.05, PricingSourceCache⟩, UpdateCacheHitStats stCached "EC2" "us-east-1") ∧
    (runPricingOp (PricingOp.calculateEBSSavings "gp3" 100 "us-east-1" 7) envNoAPI
        stCached).ebsPricingCache "ebs:gp3:us-east-1" = some 0.08 := by
  refine ⟨rfl, ?_, ?_⟩
  · exact ((pricingCacheImmutable envNoAPI stCached).2.2.1 "t3.micro" "us-east-1" 0.05
      rfl).1
  · exact (pricingCacheImmutable envNoAPI stCached).2.1
      (PricingOp.calculateEBSSavings "gp3" 100 "us-east-1" 7) "ebs:gp3:us-east-1" 0.08
      rfl

/-- C3: every WithSource pricing function reports a source drawn from
{API, Cache, Default, N/A}; Cache exactly on a cache hit, API exactly on a
fresh successful Pricing API fetch, Default exactly when a static table
supplied the price (never on the EC2 path), and N/A exactly when no price was
obtained, in which case the reported cost is 0. -/
theorem pricingSourceProvenance :
    ∀ (env : PricingEnv) (st : PricingState) (instanceType volumeType region : String)
      (sizeGB elapsedDays : Int),
      ((GetInstanceHourlyPriceWithSource env instanceType region st).1.source = PricingSourceNA →
        (GetInstanceHourlyPriceWithSource env instanceType region st).1.price = 0) ∧
      ((CalculateMonthlyCostWithSource env instanceType region st).1.source = PricingSourceNA →
        (CalculateMonthlyCostWithSource env instanceType region st).1.price = 0) ∧
      ((CalculateSavingsWithSource env instanceType region elapsedDays st).1.source
          = PricingSourceNA →
        (CalculateSavingsWithSource env instanceType region elapsedDays st).1.price = 0) ∧
      ((CalculateEBSMonthlyCostWithSource env volumeType sizeGB region st).1.source
          = PricingSourceNA →
        (CalculateEBSMonthlyCostWithSource env volumeType sizeGB region st).1.price = 0) ∧
      IsPricingSource (GetInstanceHourlyPriceWithSource env instanceType region st).1.source ∧
      IsPricingSource (CalculateMonthlyCostWithSource env instanceType region st).1.source ∧
      IsPricingSource
        (CalculateSavingsWithSource env instanceType region elapsedDays st).1.source ∧
      IsPricingSource (CalculateEBSMonthlyCostWithSource env volumeType sizeGB region st).1.source ∧
      ((GetInstanceHourlyPriceWithSource env instanceType region st).1.source = PricingSourceCache
        ↔ (st.ec2PricingCache (region ++ ":" ++ instanceType)).isSome = true) ∧
      ((CalculateMonthlyCostWithSource env instanceType region st).1.source = PricingSourceCache
        ↔ (st.ec2PricingCache (region ++ ":" ++ instanceType)).isSome = true) ∧
      ((CalculateSavingsWithSource env instanceType region elapsedDays st).1.source
          = PricingSourceCache
        ↔ (st.ec2PricingCache (region ++ ":" ++ instanceType)).isSome = true) ∧
      ((CalculateEBSMonthlyCostWithSource env volumeType sizeGB region st).1.source
          = PricingSourceCache
        ↔ (st.ebsPricingCache ("ebs:" ++ volumeType ++ ":" ++ region)).isSome = true) ∧
      ((GetInstanceHourlyPriceWithSource env instanceType region st).1.source = PricingSourceAPI
        ↔ st.ec2PricingCache (region ++ ":" ++ instanceType) = none ∧
          env.pricingClientAvailable = true ∧
          (env.ec2PriceFromAPI instanceType region).isSome = true) ∧
      ((CalculateMonthlyCostWithSource env instanceType region st).1.source = PricingSourceAPI
        ↔ st.ec2PricingCache (region ++ ":" ++ instanceType) = none ∧
          env.pricingClientAvailable = true ∧
          (env.ec2PriceFromAPI instanceType region).isSome = true) ∧
      ((CalculateSavingsWithSource env instanceType region elapsedDays st).1.source
          = PricingSourceAPI
        ↔ st.ec2PricingCache (region ++ ":" ++ instanceType) = none ∧
          env.pricingClientAvailable = true ∧
          (env.ec2PriceFromAPI instanceType region).isSome = true) ∧
      ((CalculateEBSMonthlyCostWithSource env volumeType sizeGB region st).1.source
          = PricingSourceAPI
        ↔ st.ebsPricingCache ("ebs:" ++ volumeType ++ ":" ++ region) = none ∧
          env.pricingClientAvailable = true ∧
          (env.ebsPriceFromAPI volumeType region).isSome = true) ∧
      (GetInstanceHourlyPriceWithSource env instanceType region st).1.source
        ≠ PricingSourceDefault ∧
      (CalculateMonthlyCostWithSource env instanceType region st).1.source
        ≠ PricingSourceDefault ∧
      (CalculateSavingsWithSource env instanceType region elapsedDays st).1.source
        ≠ PricingSourceDefault ∧
      ((CalculateEBSMonthlyCostWithSource env volumeType sizeGB region st).1.source
          = PricingSourceDefault
        ↔ st.ebsPricingCache ("ebs:" ++ volumeType ++ ":" ++ region) = none ∧
          ¬(env.pricingClientAvailable = true ∧
            (env.ebsPriceFromAPI volumeType region).isSome = true) ∧
          (ebsFallbackPrice volumeType region).isSome = true) ∧
      ((GetInstanceHourlyPriceWithSource env instanceType region st).1.source = PricingSourceNA
        ↔ st.ec2PricingCache (region ++ ":" ++ instanceType) = none ∧
          ¬(env.pricingClientAvailable = true ∧
            (env.ec2PriceFromAPI instanceType region).isSome = true)) ∧
      ((CalculateEBSMonthlyCostWithSource env volumeType sizeGB region st).1.source
          = PricingSourceNA
        ↔ st.ebsPricingCache ("ebs:" ++ volumeType ++ ":" ++ region) = none ∧
          ¬(env.pricingClientAvailable = true ∧
            (env.ebsPriceFromAPI volumeType region).isSome = true) ∧
          ebsFallbackPrice volumeType region = none) := by
  intro env st it vt rg sz d
  have E := ec2SourceCases env st it rg
  have B := ebsSourceCases env st vt rg sz
  have hm := monthlyCostSource env it rg st
  have hs := savingsSource env it rg d st
  refine ⟨ec2NAPriceZero env st it rg, monthlyCostNAPriceZero env st it rg,
          savingsNAPriceZero env st it rg d,
          fun h => absurd h (ebsCostNeverNA env st vt rg sz),
          E.2.2.2.2.2, ?_, ?_, B.2.2.2.2,
          E.1, ?_, ?_, B.1,
          E.2.1, ?_, ?_, B.2.1,
          E.2.2.2.1, ?_, ?_, B.2.2.1,
          E.2.2.1, ?_⟩
  · rw [hm]
    exact E.2.2.2.2.2
  · rw [hs]
    exact E.2.2.2.2.2
  · rw [hm]
    exact E.1
  · rw [hs]
    exact E.1
  · rw [hm]
    exact E.2.1
  · rw [hs]
    exact E.2.1
  · rw [hm]
    exact E.2.2.2.1
  · rw [hs]
    exact E.2.2.2.1
  · constructor
    · intro h
      exact absurd h (ebsCostNeverNA env st vt rg sz)
    · intro h
      have hfp := ebsFallbackPriceIsSome vt rg
      rw [h.2.2] at hfp
      exact absurd hfp (by decide)

/-- Witness for C3: a failed EC2 lookup reports N/A with cost 0. -/
theorem pricingSourceProvenanceWitness :
    (GetInstanceHourlyPriceWithSource envNoAPI "t3.micro" "us-east-1"
        initialPricingState).1.price = 0 :=
  (pricingSourceProvenance envNoAPI initialPricingState "t3.micro" "gp3" "us-east-1"
      100 7).1 rfl

/-- C6: every pricing lookup performs exactly one stats update — cache on a
hit, success on a fresh API fetch, failure otherwise — updatePricingAPIStats
creates missing entries at zero and then increments the one counter by one,
leaves every other counter unchanged, and no operation ever decreases a
counter. -/
theorem pricingStatsBookkeeping :
    ∀ (stats : ServiceStatsMap) (service region statType c2 s2 r2 : String),
      getStatCounter (updatePricingAPIStats stats service region statType)
          service region statType
        = getStatCounter stats service region statType + 1 ∧
      (c2 ≠ statType →
        getStatCounter (updatePricingAPIStats stats service region statType) service region c2
          = getStatCounter stats service region c2) ∧
      (s2 ≠ service ∨ r2 ≠ region →
        getStatCounter (updatePricingAPIStats stats service region statType) s2 r2 c2
          = getStatCounter stats s2 r2 c2) ∧
      ((updatePricingAPIStats stats service region statType) service).isSome = true ∧
      (∀ (env : PricingEnv) (st : PricingState) (instanceType volumeType : String)
         (sizeGB : Int),
        (GetInstanceHourlyPriceWithSource env instanceType region st).2.pricingAPIStats
          = updatePricingAPIStats st.pricingAPIStats "EC2" region
              (if (st.ec2PricingCache (region ++ ":" ++ instanceType)).isSome = true
               then "cache"
               else if env.pricingClientAvailable = true ∧
                       (env.ec2PriceFromAPI instanceType region).isSome = true
               then "success" else "failure") ∧
        (CalculateEBSMonthlyCostWithSource env volumeType sizeGB region st).2.pricingAPIStats
          = updatePricingAPIStats st.pricingAPIStats "EBS" region
              (if (st.ebsPricingCache ("ebs:" ++ volumeType ++ ":" ++ region)).isSome = true
               then "cache"
               else if env.pricingClientAvailable = true ∧
                       (env.ebsPriceFromAPI volumeType region).isSome = true
               then "success" else "failure") ∧
        (GetEBSVolumePrice env volumeType region st).2.pricingAPIStats
          = updatePricingAPIStats st.pricingAPIStats "EBS" region
              (if (st.ebsPricingCache ("ebs:" ++ volumeType ++ ":" ++ region)).isSome = true
               then "cache"
               else if env.pricingClientAvailable = true ∧
                       (env.ebsPriceFromAPI volumeType region).isSome = true
               then "success" else "failure")) ∧
      (∀ (env : PricingEnv) (st : PricingState) (op : PricingOp),
        getStatCounter st.pricingAPIStats s2 r2 c2
          ≤ getStatCounter (runPricingOp op env st).pricingAPIStats s2 r2 c2) := by
  intro stats service region statType c2 s2 r2
  refine ⟨updateCounterBump stats service region statType,
          fun h => updateCounterOther stats service region statType c2 h,
          fun h => updateCounterElsewhere stats service region statType s2 r2 c2 h,
          (updateCreatesEntry stats service region statType).1,
          fun env st it vt sz =>
            ⟨ec2LookupStats env st it region, ebsLookupStats env st vt region sz,
             volLookupStats env st vt region⟩,
          fun env st op => ?_⟩
  obtain ⟨svc, rgn, t, heq⟩ := runOpStatsExists env st op
  rw [heq]
  exact updateCounterMono st.pricingAPIStats svc rgn t s2 r2 c2

/-- Witness for C6 starting from the empty stats map. -/
theorem pricingStatsBookkeepingWitness :
    getStatCounter (updatePricingAPIStats initialPricingState.pricingAPIStats
        "EC2" "us-east-1" "cache") "EC2" "us-east-1" "cache"
      = getStatCounter initialPricingState.pricingAPIStats "EC2" "us-east-1" "cache" + 1 ∧
    getStatCounter (updatePricingAPIStats initialPricingState.pricingAPIStats
        "EC2" "us-east-1" "cache") "EC2" "us-east-1" "success"
      = getStatCounter initialPricingState.pricingAPIStats "EC2" "us-east-1" "success" ∧
    getStatCounter (updatePricingAPIStats initialPricingState.pricingAPIStats
        "EC2" "us-east-1" "cache") "EIP" "us-east-1" "cache"
      = getStatCounter initialPricingState.pricingAPIStats "EIP" "us-east-1" "cache" :=
  ⟨(pricingStatsBookkeeping initialPricingState.pricingAPIStats
      "EC2" "us-east-1" "cache" "success" "EIP" "us-east-1").1,
   (pricingStatsBookkeeping initialPricingState.pricingAPIStats
      "EC2" "us-east-1" "cache" "success" "EIP" "us-east-1").2.1 (by decide),
   (pricingStatsBookkeeping initialPricingState.pricingAPIStats
      "EC2" "us-east-1" "cache" "success" "EIP" "us-east-1").2.2.1 (Or.inl (by decide))⟩

end Idled
